import Mathlib

/-!
ExpenseGuard-AI: the browser-side controller (`static/app.js`).

A shallow embedding of the page controller: the two click handlers (upload and
forecast), the table renderer `populateTable`, the chart renderer
`drawForecastChart` and the UI control helpers, as pure functions on an explicit
page state.

Conventions of the embedding.

* A DOM element is represented by the attributes the script reads or writes:
  `textContent` is a `String`, the presence of the class `d-none` in an element's
  `classList` is a `Bool` (`true` = hidden), `disabled` is a `Bool`.
* A JavaScript number is represented by its exact value, a rational.
* The runtime's `Number::toString` (used by template literals, by `textContent`
  assignment and by `toFixed` for magnitudes of at least `10^21`) is a parameter
  `numberToString` of the functions that need it.
* A promise chain `fetch(..).then(f).then(g).catch(h)` is the composition of `f`
  (returning `Except`), `g` and `h`, applied to the outcome of the request.
* `Chart` objects live in a heap `charts`; a handle is an index into it.
* Response bodies have the shapes the services document (numbers are finite, as
  JSON guarantees); a body of another shape, on which a callback would throw, is
  outside the embedding.
-/

namespace ExpenseGuard

/-! ## Data received from the services -/

/-- One element of `all_transactions`. `Description` may be absent. -/
structure Transaction where
  id : ℚ
  Description : Option String
  Amount : ℚ
  category : String
  is_fraud : ℚ
  deriving DecidableEq

/-- The JSON body of a successful `/upload_csv` response. -/
structure UploadData where
  total_transactions : ℚ
  transactions_flagged_as_fraud : ℚ
  all_transactions : List Transaction
  deriving DecidableEq

/-- One element of `forecast`. -/
structure ForecastPoint where
  ds : String
  yhat : ℚ
  yhat_lower : ℚ
  yhat_upper : ℚ
  deriving DecidableEq

/-- The JSON body of a successful `/forecast` response. -/
structure ForecastData where
  forecast : List ForecastPoint
  deriving DecidableEq

/-- The JSON body of a non-success response; the `error` field may be absent. -/
structure ErrorBody where
  error : Option String
  deriving DecidableEq

/-- The result of `response.json()`: the parsed body, or a rejection carrying the
parser's message. -/
inductive JsonResult (α : Type) where
  | parsed (value : α)
  | syntaxError (message : String)
  deriving DecidableEq

/-- How a `fetch` call ends: the promise rejects (network failure), or it resolves
with a response whose `ok` flag is false or true. -/
inductive FetchOutcome (α : Type) where
  | rejected (message : String)
  | notOk (body : JsonResult ErrorBody)
  | ok (body : JsonResult α)
  deriving DecidableEq

/-! ## Page state -/

/-- A selected file. -/
structure File where
  name : String
  content : String
  deriving DecidableEq

/-- The body passed to `fetch`. -/
inductive FetchBody where
  | formData (fields : List (String × File))
  | json (transactions : List Transaction)
  deriving DecidableEq

/-- One call of `fetch`. -/
structure FetchCall where
  url : String
  method : String
  headers : List (String × String)
  body : FetchBody
  deriving DecidableEq

/-- A table row element: its class list and the markup assigned to `innerHTML`. -/
structure Row where
  classList : List String
  innerHTML : String
  deriving DecidableEq

/-- The `fill` option of a dataset: absent, a relative target such as `'+1'`, or
the boolean `false`. -/
inductive Fill where
  | relative (target : String)
  | off
  deriving DecidableEq

/-- One entry of `data.datasets` in the chart configuration. -/
structure Dataset where
  label : String
  data : List ℚ
  fill : Option Fill
  borderColor : String
  backgroundColor : Option String
  borderWidth : Option ℚ
  tension : Option ℚ
  pointRadius : Option ℚ
  showInLegend : Option Bool
  deriving DecidableEq

/-- The axis description in `options.scales`. -/
structure Axis where
  beginAtZero : Option Bool
  titleDisplay : Bool
  titleText : String
  deriving DecidableEq

/-- The configuration object passed to `new Chart`. -/
structure ChartConfig where
  type : String
  labels : List String
  datasets : List Dataset
  responsive : Bool
  maintainAspectRatio : Bool
  y : Axis
  x : Axis
  deriving DecidableEq

/-- A `Chart` object: the configuration it was built from and whether `destroy`
has been called on it. -/
structure ChartInstance where
  config : ChartConfig
  destroyed : Bool
  deriving DecidableEq

/-- The state the script reads and writes. -/
structure Page where
  uploadButtonDisabled : Bool
  loadingSpinnerHidden : Bool
  uploadButtonText : String
  resultsSectionHidden : Bool
  totalTransactionsEl : String
  fraudTransactionsEl : String
  tableBody : List Row
  errorAlertText : String
  errorAlertHidden : Bool
  forecastButtonDisabled : Bool
  forecastSpinnerHidden : Bool
  forecastButtonText : String
  chartContainerHidden : Bool
  allTransactionsData : List Transaction
  myChart : Option Nat
  charts : List ChartInstance
  fetchLog : List FetchCall
  deriving DecidableEq

/-- The state when the script has just run (lines 22-23): the markup as loaded,
an empty transaction list, no chart, no request issued. -/
def initialPage (markup : Page) : Page :=
  { markup with allTransactionsData := [], myChart := none, charts := [], fetchLog := [] }

/-! ## UI control functions (section 5 of the script) -/

/-- The function `setUploadLoading(isLoading)`. -/
def setUploadLoading (isLoading : Bool) (s : Page) : Page :=
  if isLoading then
    { s with uploadButtonText := "Analyzing...", loadingSpinnerHidden := false,
             uploadButtonDisabled := true, errorAlertHidden := true }
  else
    { s with uploadButtonText := "Analyze", loadingSpinnerHidden := true,
             uploadButtonDisabled := false }

/-- The function `setForecastLoading(isLoading)`. -/
def setForecastLoading (isLoading : Bool) (s : Page) : Page :=
  if isLoading then
    { s with forecastButtonText := "Generating...", forecastSpinnerHidden := false,
             forecastButtonDisabled := true, errorAlertHidden := true }
  else
    { s with forecastButtonText := "Generate 30-Day Forecast", forecastSpinnerHidden := true,
             forecastButtonDisabled := false }

/-- The function `showAlert(message)`. -/
def showAlert (message : String) (s : Page) : Page :=
  { s with errorAlertText := message, errorAlertHidden := false }

/-- A call of `fetch`, recorded in the log. -/
def fetch (call : FetchCall) (s : Page) : Page :=
  { s with fetchLog := s.fetchLog ++ [call] }

/-! ## `Number.prototype.toFixed` -/

/-- The digits of `n` left-padded with zeros to more than `f` characters, with a
decimal point before the last `f` (steps "if f ≠ 0" of `toFixed`). -/
def fixedDigits (n f : Nat) : List Char :=
  let m := if n = 0 then ['0'] else Nat.toDigits 10 n
  if f ≠ 0 then
    let k := m.length
    let m := if k ≤ f then List.replicate (f + 1 - k) '0' ++ m else m
    let k := if k ≤ f then f + 1 else k
    m.take (k - f) ++ '.' :: m.drop (k - f)
  else m

/-- The method call `x.toFixed(f)` for a finite number `x`: the sign, then either the runtime's
`ToString` of the magnitude when it is at least `10^21`, or the digits of the
integer `n` closest to `|x| * 10^f` (the larger one on a tie) with the decimal
point inserted. -/
def toFixed (numberToString : ℚ → String) (x : ℚ) (f : Nat) : String :=
  let s := if x < 0 then "-" else ""
  let x := if x < 0 then -x else x
  if (10 : ℚ) ^ 21 ≤ x then s ++ numberToString x
  else
    let n := (Int.floor (x * (10 : ℚ) ^ f + 1 / 2)).toNat
    s ++ String.mk (fixedDigits n f)

/-! ## Table renderer -/

/-- The cell for `tx.Description || 'N/A'`: an absent or empty description is
falsy. -/
def descriptionCell (tx : Transaction) : String :=
  match tx.Description with
  | none => "N/A"
  | some d => if d = "" then "N/A" else d

/-- The cell for the amount: a dollar sign and `tx.Amount.toFixed(2)`. -/
def amountCell (numberToString : ℚ → String) (tx : Transaction) : String :=
  "$" ++ toFixed numberToString tx.Amount 2

/-- The cell for `tx.is_fraud === 1 ? 'Yes' : 'No'`. -/
def fraudCell (tx : Transaction) : String :=
  if tx.is_fraud = 1 then "Yes" else "No"

/-- The template literal assigned to `row.innerHTML`, with its five
interpolations. -/
def rowTemplate (idCell description amount category fraud : String) : String :=
  "\n                <td>" ++ idCell ++ "</td>\n                <td>" ++ description ++
  "</td>\n                <td>" ++ amount ++ "</td>\n                <td>" ++ category ++
  "</td>\n                <td>" ++ fraud ++ "</td>\n            "

/-- The body of the `forEach` callback up to `appendChild`: the row element built
for one transaction. -/
def buildRow (numberToString : ℚ → String) (tx : Transaction) : Row :=
  { classList := if tx.is_fraud = 1 then ["table-danger"] else [],
    innerHTML := rowTemplate (numberToString tx.id) (descriptionCell tx)
      (amountCell numberToString tx) tx.category (fraudCell tx) }

/-- The function `populateTable(transactions)`: empty the table body, then append one row per
transaction in iteration order. -/
def populateTable (numberToString : ℚ → String) (transactions : List Transaction)
    (s : Page) : Page :=
  let cleared := { s with tableBody := [] }
  transactions.foldl
    (fun st tx => { st with tableBody := st.tableBody ++ [buildRow numberToString tx] })
    cleared

/-! ## Chart renderer -/

/-- The method `Chart.prototype.destroy` on the object with handle `h`. -/
def destroyAt : Nat → List ChartInstance → List ChartInstance
  | _, [] => []
  | 0, c :: cs => { c with destroyed := true } :: cs
  | h + 1, c :: cs => c :: destroyAt h cs

/-- Lines 121-123: `if (myChart) { myChart.destroy(); }`. -/
def disposeExisting (s : Page) : Page :=
  match s.myChart with
  | some h => { s with charts := destroyAt h s.charts }
  | none => s

/-- The configuration object of lines 131-170 for the given forecast. -/
def chartConfig (forecastData : List ForecastPoint) : ChartConfig :=
  let labels := forecastData.map (fun item => item.ds)
  let predicted := forecastData.map (fun item => item.yhat)
  let lowerBound := forecastData.map (fun item => item.yhat_lower)
  let upperBound := forecastData.map (fun item => item.yhat_upper)
  { type := "line",
    labels := labels,
    datasets := [
      { label := "Forecast", data := predicted, fill := none,
        borderColor := "#0a9396", backgroundColor := some "transparent",
        borderWidth := some 3, tension := some (1 / 10), pointRadius := none,
        showInLegend := none },
      { label := "Uncertainty Range", data := upperBound, fill := some (Fill.relative "+1"),
        borderColor := "transparent", backgroundColor := some "rgba(10, 147, 150, 0.1)",
        borderWidth := none, tension := none, pointRadius := some 0,
        showInLegend := none },
      { label := "Lower Bound", data := lowerBound, fill := some Fill.off,
        borderColor := "transparent", backgroundColor := none,
        borderWidth := none, tension := none, pointRadius := some 0,
        showInLegend := some false } ],
    responsive := true,
    maintainAspectRatio := true,
    y := { beginAtZero := some true, titleDisplay := true, titleText := "Predicted Spend ($)" },
    x := { beginAtZero := none, titleDisplay := true, titleText := "Date" } }

/-- Lines 125-170: build the configuration, construct a `Chart` and store its
handle in `myChart`. -/
def constructChart (forecastData : List ForecastPoint) (s : Page) : Page :=
  { s with charts := s.charts ++ [{ config := chartConfig forecastData, destroyed := false }],
           myChart := some s.charts.length }

/-- The function `drawForecastChart(forecastData)`. -/
def drawForecastChart (forecastData : List ForecastPoint) (s : Page) : Page :=
  constructChart forecastData (disposeExisting s)

/-- The `Chart` objects on which `destroy` has not been called. -/
def liveCharts (s : Page) : List ChartInstance :=
  s.charts.filter (fun c => !c.destroyed)

/-! ## Request outcome -/

/-- The expression `err.error || "Server error"`: an absent or empty `error` is falsy. -/
def errorMessage (err : ErrorBody) : String :=
  match err.error with
  | none => "Server error"
  | some e => if e = "" then "Server error" else e

/-- The first `.then` callback of both handlers, together with the propagation of
a rejected `fetch` or `json()` promise: the value handed to the second `.then`, or
the `message` of the error handed to `.catch`. -/
def responseStep {α : Type} : FetchOutcome α → Except String α
  | .rejected message => .error message
  | .notOk (.parsed err) => .error (errorMessage err)
  | .notOk (.syntaxError message) => .error message
  | .ok (.parsed data) => .ok data
  | .ok (.syntaxError message) => .error message

/-! ## Upload handler -/

/-- The second `.then` callback of the upload handler (lines 49-58). -/
def uploadSuccess (numberToString : ℚ → String) (data : UploadData) (s : Page) : Page :=
  let s := setUploadLoading false s
  let s := { s with resultsSectionHidden := false }
  let s := { s with totalTransactionsEl := numberToString data.total_transactions }
  let s := { s with fraudTransactionsEl := numberToString data.transactions_flagged_as_fraud }
  let s := { s with allTransactionsData := data.all_transactions }
  populateTable numberToString s.allTransactionsData s

/-- The `.catch` callback of the upload handler (lines 59-62). -/
def uploadFailure (message : String) (s : Page) : Page :=
  showAlert ("Error processing file: " ++ message) (setUploadLoading false s)

/-- The click handler of the upload button (lines 28-63), with the request ending
as `outcome`. `files` is `fileInput.files`. -/
def uploadButtonClick (numberToString : ℚ → String) (files : List File)
    (outcome : FetchOutcome UploadData) (s : Page) : Page :=
  match files.head? with
  | none => showAlert "Please select a CSV file first." s
  | some file =>
    let s := setUploadLoading true s
    let s := fetch { url := "/upload_csv", method := "POST", headers := [],
                     body := FetchBody.formData [("file", file)] } s
    match responseStep outcome with
    | .ok data => uploadSuccess numberToString data s
    | .error message => uploadFailure message s

/-! ## Forecast handler -/

/-- The second `.then` callback of the forecast handler (lines 85-89). -/
def forecastSuccess (data : ForecastData) (s : Page) : Page :=
  let s := setForecastLoading false s
  let s := { s with chartContainerHidden := false }
  drawForecastChart data.forecast s

/-- The `.catch` callback of the forecast handler (lines 90-93). -/
def forecastFailure (message : String) (s : Page) : Page :=
  showAlert ("Error generating forecast: " ++ message) (setForecastLoading false s)

/-- The click handler of the forecast button (lines 66-94), with the request ending
as `outcome`. -/
def forecastButtonClick (outcome : FetchOutcome ForecastData) (s : Page) : Page :=
  if s.allTransactionsData.length = 0 then
    showAlert "Please upload and analyze a transaction file first." s
  else
    let s := setForecastLoading true s
    let s := fetch { url := "/forecast", method := "POST",
                     headers := [("Content-Type", "application/json")],
                     body := FetchBody.json s.allTransactionsData } s
    match responseStep outcome with
    | .ok data => forecastSuccess data s
    | .error message => forecastFailure message s

/-! ## Scenario data -/

/-- The forecast of Scenario C. -/
def scenarioCForecast : List ForecastPoint :=
  [ { ds := "2024-01-01", yhat := 100, yhat_lower := 80, yhat_upper := 120 } ]

/-- A page with nothing shown, used to instantiate the theorems. -/
def blankPage : Page :=
  { uploadButtonDisabled := false, loadingSpinnerHidden := true, uploadButtonText := "Analyze",
    resultsSectionHidden := true, totalTransactionsEl := "", fraudTransactionsEl := "",
    tableBody := [], errorAlertText := "", errorAlertHidden := true,
    forecastButtonDisabled := false, forecastSpinnerHidden := true,
    forecastButtonText := "Generate 30-Day Forecast", chartContainerHidden := true,
    allTransactionsData := [], myChart := none, charts := [], fetchLog := [] }

/-- A stand-in for the runtime's `Number::toString`, used to instantiate the
theorems: exact at `10^21`, where the runtime switches to exponent notation
(`String(1e21)` is "1e+21"), and decimal digits of the numerator elsewhere (exact
on integers of smaller magnitude). -/
def integerToString (x : ℚ) : String :=
  if x = (10 : ℚ) ^ 21 then "1e+21"
  else if x.num < 0 then "-" ++ Nat.repr x.num.natAbs else Nat.repr x.num.natAbs

/-- A sequence of calls of `drawForecastChart`, one per element of `inputs`, in
order. -/
def runDraws (inputs : List (List ForecastPoint)) (s : Page) : Page :=
  inputs.foldl (fun st ps => drawForecastChart ps st) s

/-! ## Supporting lemmas -/

theorem populateTable_foldl (numberToString : ℚ → String) (ts : List Transaction) (st : Page) :
    ts.foldl (fun st tx => { st with tableBody := st.tableBody ++ [buildRow numberToString tx] }) st
      = { st with tableBody := st.tableBody ++ ts.map (buildRow numberToString) } := by
  induction ts generalizing st with
  | nil => simp
  | cons t ts ih => simp [List.foldl, ih]

theorem populateTable_eq (numberToString : ℚ → String) (ts : List Transaction) (s : Page) :
    populateTable numberToString ts s = { s with tableBody := ts.map (buildRow numberToString) } := by
  simp [populateTable, populateTable_foldl]

theorem destroyAt_length (h : Nat) (cs : List ChartInstance) :
    (destroyAt h cs).length = cs.length := by
  induction cs generalizing h with
  | nil => cases h <;> rfl
  | cons c cs ih => cases h <;> simp [destroyAt, ih]

theorem destroyAt_append_length (l : List ChartInstance) (c : ChartInstance)
    (r : List ChartInstance) :
    destroyAt l.length (l ++ c :: r) = l ++ { c with destroyed := true } :: r := by
  induction l with
  | nil => rfl
  | cons a l ih => simp [destroyAt, ih]

theorem disposeExisting_length (s : Page) :
    (disposeExisting s).charts.length = s.charts.length := by
  unfold disposeExisting
  cases s.myChart <;> simp [destroyAt_length]

theorem liveCharts_drawForecastChart (ps : List ForecastPoint) (s : Page) :
    liveCharts (drawForecastChart ps s)
      = liveCharts (disposeExisting s) ++ [{ config := chartConfig ps, destroyed := false }] := by
  simp [liveCharts, drawForecastChart, constructChart]

theorem liveCharts_dispose_draw (ps : List ForecastPoint) (s : Page)
    (h : liveCharts (disposeExisting s) = []) :
    liveCharts (disposeExisting (drawForecastChart ps s)) = [] := by
  have h2 : (disposeExisting (drawForecastChart ps s)).charts
      = (disposeExisting s).charts ++ [{ config := chartConfig ps, destroyed := true }] := by
    simp [disposeExisting, drawForecastChart, constructChart, destroyAt_append_length]
  unfold liveCharts at h ⊢
  rw [h2]
  simp [h]

theorem runDraws_snoc (inputs : List (List ForecastPoint)) (ps : List ForecastPoint) (s : Page) :
    runDraws (inputs ++ [ps]) s = drawForecastChart ps (runDraws inputs s) := by
  simp [runDraws, List.foldl_append]

theorem runDraws_inv (inputs : List (List ForecastPoint)) (s : Page)
    (h : liveCharts (disposeExisting s) = []) :
    liveCharts (disposeExisting (runDraws inputs s)) = [] := by
  induction inputs using List.reverseRecOn with
  | nil => simpa [runDraws] using h
  | append_singleton l ps ih =>
    rw [runDraws_snoc]
    exact liveCharts_dispose_draw ps _ ih

theorem runDraws_length (inputs : List (List ForecastPoint)) (s : Page) :
    (runDraws inputs s).charts.length = s.charts.length + inputs.length := by
  induction inputs using List.reverseRecOn with
  | nil => simp [runDraws]
  | append_singleton l ps ih =>
    rw [runDraws_snoc]
    simp [drawForecastChart, constructChart, disposeExisting_length, ih]
    omega

theorem initialPage_inv (markup : Page) : liveCharts (disposeExisting (initialPage markup)) = [] := by
  rfl

theorem liveCharts_runDraws_length_le (inputs : List (List ForecastPoint)) (markup : Page) :
    (liveCharts (runDraws inputs (initialPage markup))).length ≤ 1 := by
  induction inputs using List.reverseRecOn with
  | nil => simp [runDraws, liveCharts, initialPage]
  | append_singleton l ps _ =>
    rw [runDraws_snoc, liveCharts_drawForecastChart,
      runDraws_inv l _ (initialPage_inv markup)]
    simp

/-! ## Upload: validation, failure and success -/

/-- C1 (as stated, refuted): with a selected file and the response of Scenario B
(non-success, body `error = "bad csv header"`), the alert text after the upload
handler is "Error processing file: bad csv header", not the bare error field. -/
theorem upload_alert_not_verbatim :
    (uploadButtonClick integerToString [{ name := "t.csv", content := "" }]
        (FetchOutcome.notOk (JsonResult.parsed { error := some "bad csv header" }))
        blankPage).errorAlertText = "Error processing file: bad csv header"
    ∧ (uploadButtonClick integerToString [{ name := "t.csv", content := "" }]
        (FetchOutcome.notOk (JsonResult.parsed { error := some "bad csv header" }))
        blankPage).errorAlertText ≠ "bad csv header" := by
  decide

/-- C1 (amended): for every upload with a selected file whose response is
non-success and whose body carries the error field `e`, the alert is visible and
its text is "Error processing file: " followed by `e` when `e` is non-empty, and by
"Server error" when `e` is the empty string. -/
theorem upload_alert_prefixed (numberToString : ℚ → String) (file : File) (files : List File)
    (e : String) (s : Page) :
    (uploadButtonClick numberToString (file :: files)
        (FetchOutcome.notOk (JsonResult.parsed { error := some e })) s).errorAlertText
      = "Error processing file: " ++ (if e = "" then "Server error" else e)
    ∧ (uploadButtonClick numberToString (file :: files)
        (FetchOutcome.notOk (JsonResult.parsed { error := some e })) s).errorAlertHidden
      = false := by
  simp [uploadButtonClick, responseStep, uploadFailure, showAlert, errorMessage]

/-- C2: when no file is selected, the upload handler issues no request, leaves the
upload control (disabled flag, label, spinner) as it was, leaves the transaction
list, the summary fields and the table unchanged, and shows the alert with the
validation message; the whole effect is one `showAlert`. -/
theorem upload_without_file (numberToString : ℚ → String) (outcome : FetchOutcome UploadData)
    (s : Page) :
    uploadButtonClick numberToString [] outcome s
        = showAlert "Please select a CSV file first." s
    ∧ (uploadButtonClick numberToString [] outcome s).fetchLog = s.fetchLog
    ∧ (uploadButtonClick numberToString [] outcome s).uploadButtonDisabled
        = s.uploadButtonDisabled
    ∧ (uploadButtonClick numberToString [] outcome s).uploadButtonText = s.uploadButtonText
    ∧ (uploadButtonClick numberToString [] outcome s).loadingSpinnerHidden
        = s.loadingSpinnerHidden
    ∧ (uploadButtonClick numberToString [] outcome s).allTransactionsData
        = s.allTransactionsData
    ∧ (uploadButtonClick numberToString [] outcome s).totalTransactionsEl
        = s.totalTransactionsEl
    ∧ (uploadButtonClick numberToString [] outcome s).fraudTransactionsEl
        = s.fraudTransactionsEl
    ∧ (uploadButtonClick numberToString [] outcome s).tableBody = s.tableBody
    ∧ (uploadButtonClick numberToString [] outcome s).errorAlertHidden = false
    ∧ (uploadButtonClick numberToString [] outcome s).errorAlertText
        = "Please select a CSV file first." := by
  simp [uploadButtonClick, showAlert]

/-- C4: for every successful upload response, after the handler the transaction
list is exactly the response's `all_transactions`, and the table holds exactly one
row per element, the i-th row being the row built from the i-th transaction,
whatever the table held before. -/
theorem upload_success_table (numberToString : ℚ → String) (file : File) (files : List File)
    (data : UploadData) (s : Page) :
    (uploadButtonClick numberToString (file :: files)
        (FetchOutcome.ok (JsonResult.parsed data)) s).allTransactionsData
      = data.all_transactions
    ∧ (uploadButtonClick numberToString (file :: files)
        (FetchOutcome.ok (JsonResult.parsed data)) s).tableBody
      = data.all_transactions.map (buildRow numberToString)
    ∧ (uploadButtonClick numberToString (file :: files)
        (FetchOutcome.ok (JsonResult.parsed data)) s).tableBody.length
      = data.all_transactions.length
    ∧ ∀ i : Nat,
        (uploadButtonClick numberToString (file :: files)
          (FetchOutcome.ok (JsonResult.parsed data)) s).tableBody[i]?
        = (data.all_transactions[i]?).map (buildRow numberToString) := by
  simp [uploadButtonClick, responseStep, uploadSuccess, populateTable_eq]

/-- C5: `populateTable` is idempotent: for every transaction sequence and every
prior page, calling it twice leaves the same page as calling it once, and the table
then holds one row per transaction (none duplicated). -/
theorem populateTable_idempotent (numberToString : ℚ → String) (ts : List Transaction)
    (s : Page) :
    populateTable numberToString ts (populateTable numberToString ts s)
        = populateTable numberToString ts s
    ∧ (populateTable numberToString ts (populateTable numberToString ts s)).tableBody
        = ts.map (buildRow numberToString)
    ∧ (populateTable numberToString ts (populateTable numberToString ts s)).tableBody.length
        = ts.length := by
  simp [populateTable_eq]

/-! ## Forecast: validation -/

theorem drawForecastChart_fetchLog (ps : List ForecastPoint) (s : Page) :
    (drawForecastChart ps s).fetchLog = s.fetchLog := by
  unfold drawForecastChart constructChart disposeExisting
  cases s.myChart <;> rfl

/-- C3: when the stored transaction sequence is empty, the forecast handler issues
no request, leaves the forecast control (disabled flag, label, spinner) as it was
and shows the alert with the validation message; and whenever the handler does
issue a request (the log grows), the stored sequence was non-empty and the request
is the single call to `/forecast` carrying that sequence. -/
theorem forecast_requires_transactions (outcome : FetchOutcome ForecastData) (s : Page) :
    (s.allTransactionsData = [] →
        forecastButtonClick outcome s
          = showAlert "Please upload and analyze a transaction file first." s
        ∧ (forecastButtonClick outcome s).fetchLog = s.fetchLog
        ∧ (forecastButtonClick outcome s).forecastButtonDisabled = s.forecastButtonDisabled
        ∧ (forecastButtonClick outcome s).forecastButtonText = s.forecastButtonText
        ∧ (forecastButtonClick outcome s).forecastSpinnerHidden = s.forecastSpinnerHidden
        ∧ (forecastButtonClick outcome s).errorAlertHidden = false
        ∧ (forecastButtonClick outcome s).errorAlertText
            = "Please upload and analyze a transaction file first.")
    ∧ ((forecastButtonClick outcome s).fetchLog ≠ s.fetchLog →
        s.allTransactionsData ≠ []
        ∧ (forecastButtonClick outcome s).fetchLog
            = s.fetchLog ++ [{ url := "/forecast", method := "POST",
                               headers := [("Content-Type", "application/json")],
                               body := FetchBody.json s.allTransactionsData }]) := by
  constructor
  · intro h
    simp [forecastButtonClick, h, showAlert]
  · intro hlog
    have hne : s.allTransactionsData ≠ [] := by
      intro h
      apply hlog
      simp [forecastButtonClick, h, showAlert]
    refine ⟨hne, ?_⟩
    have hlen : ¬ s.allTransactionsData.length = 0 := by
      simpa [List.length_eq_zero] using hne
    unfold forecastButtonClick
    rw [if_neg hlen]
    cases responseStep outcome with
    | error m => simp [forecastFailure, showAlert, setForecastLoading, fetch]
    | ok data =>
      simp [forecastSuccess, drawForecastChart_fetchLog, setForecastLoading, fetch]

/-- Witness for C3: on the blank page (empty store) a forecast click logs nothing
and shows the alert. -/
theorem forecast_requires_transactions_witness :
    blankPage.allTransactionsData = []
    ∧ (forecastButtonClick (FetchOutcome.rejected "offline") blankPage).fetchLog
        = blankPage.fetchLog
    ∧ (forecastButtonClick (FetchOutcome.rejected "offline") blankPage).errorAlertHidden
        = false :=
  ⟨rfl,
   ((forecast_requires_transactions (FetchOutcome.rejected "offline") blankPage).1 rfl).2.1,
   ((forecast_requires_transactions (FetchOutcome.rejected "offline")
      blankPage).1 rfl).2.2.2.2.2.1⟩

/-! ## Rows: amount and description cells -/

/-- C9: for every forecast sequence (the empty one included), `drawForecastChart`
constructs a live chart (stored in `myChart`) whose labels and three series
(Forecast, upper bound, lower bound, in this order) each have as many entries as
the sequence, the i-th entries being the i-th point's `ds`, `yhat`, `yhat_upper`
and `yhat_lower`; for the Scenario C forecast each series has one point, the upper
value being 120 and the lower value 80. -/
theorem chart_series (ps : List ForecastPoint) (s : Page) :
    (drawForecastChart ps s).myChart = some s.charts.length
    ∧ (drawForecastChart ps s).charts[s.charts.length]?
        = some { config := chartConfig ps, destroyed := false }
    ∧ { config := chartConfig ps, destroyed := false } ∈ liveCharts (drawForecastChart ps s)
    ∧ (chartConfig ps).labels = ps.map (fun p => p.ds)
    ∧ (chartConfig ps).datasets.map (fun d => d.label)
        = ["Forecast", "Uncertainty Range", "Lower Bound"]
    ∧ (chartConfig ps).datasets.map (fun d => d.data)
        = [ps.map (fun p => p.yhat), ps.map (fun p => p.yhat_upper),
           ps.map (fun p => p.yhat_lower)]
    ∧ (chartConfig ps).labels.length = ps.length
    ∧ (∀ d ∈ (chartConfig ps).datasets, d.data.length = ps.length)
    ∧ (∀ i : Nat, (chartConfig ps).labels[i]? = (ps[i]?).map (fun p => p.ds))
    ∧ (chartConfig []).labels = []
    ∧ (chartConfig []).datasets.map (fun d => d.data) = [[], [], []]
    ∧ (chartConfig scenarioCForecast).labels = ["2024-01-01"]
    ∧ (chartConfig scenarioCForecast).datasets.map (fun d => d.data)
        = [[100], [120], [80]] := by
  have hlen : (disposeExisting s).charts.length = s.charts.length :=
    disposeExisting_length s
  refine ⟨?_, ?_, ?_, rfl, rfl, rfl, ?_, ?_, ?_, rfl, rfl, rfl, rfl⟩
  · simp [drawForecastChart, constructChart, hlen]
  · simp [drawForecastChart, constructChart, ← hlen]
  · rw [liveCharts_drawForecastChart]
    simp
  · simp [chartConfig]
  · simp [chartConfig]
  · intro i
    simp [chartConfig]

/-! ## Chart lifecycle -/

/-- C6: for every non-empty sequence of calls of `drawForecastChart` from the
initial page (no chart), exactly one chart is live afterwards, it is the one
`myChart` refers to and it was built from the last call's input; every earlier
chart object has been destroyed; and at every point of the sequence, right after
the dispose step of the next call no chart is live (so each instance is destroyed
before the next is constructed) and never more than one chart is live. -/
theorem chart_lifecycle (markup : Page) (inputs : List (List ForecastPoint))
    (last : List ForecastPoint) :
    liveCharts (runDraws (inputs ++ [last]) (initialPage markup))
        = [{ config := chartConfig last, destroyed := false }]
    ∧ (runDraws (inputs ++ [last]) (initialPage markup)).myChart = some inputs.length
    ∧ (runDraws (inputs ++ [last]) (initialPage markup)).charts[inputs.length]?
        = some { config := chartConfig last, destroyed := false }
    ∧ (runDraws (inputs ++ [last]) (initialPage markup)).charts.length = inputs.length + 1
    ∧ (∀ c ∈ (runDraws (inputs ++ [last]) (initialPage markup)).charts.take inputs.length,
        c.destroyed = true)
    ∧ (∀ k : Nat,
        liveCharts (disposeExisting
            (runDraws ((inputs ++ [last]).take k) (initialPage markup))) = []
        ∧ (liveCharts (runDraws ((inputs ++ [last]).take k) (initialPage markup))).length
            ≤ 1) := by
  have hinv := runDraws_inv inputs _ (initialPage_inv markup)
  have hlen : (disposeExisting (runDraws inputs (initialPage markup))).charts.length
      = inputs.length := by
    rw [disposeExisting_length, runDraws_length]
    simp [initialPage]
  refine ⟨?_, ?_, ?_, ?_, ?_, ?_⟩
  · rw [runDraws_snoc, liveCharts_drawForecastChart, hinv]
    rfl
  · rw [runDraws_snoc]
    simp [drawForecastChart, constructChart, hlen]
  · rw [runDraws_snoc]
    simp [drawForecastChart, constructChart, ← hlen]
  · rw [runDraws_snoc]
    simp [drawForecastChart, constructChart, hlen]
  · rw [runDraws_snoc]
    intro c hc
    have hc2 : c ∈ (disposeExisting (runDraws inputs (initialPage markup))).charts := by
      simpa [drawForecastChart, constructChart, ← hlen] using hc
    have hfil := hinv
    unfold liveCharts at hfil
    rw [List.filter_eq_nil_iff] at hfil
    simpa using hfil c hc2
  · intro k
    exact ⟨runDraws_inv _ _ (initialPage_inv markup), liveCharts_runDraws_length_le _ markup⟩

/-! ## Failure path -/

end ExpenseGuard
